import Mathlib

/-!
Shallow embedding of the error registry of the vertexai package
(packages/vertexai/src/errors.ts): the closed set of error kinds, the
message template table, the per-kind structured parameters, placeholder
substitution, and the construction entry point createVertexError.

The substitution engine (ErrorFactory from the util package) and the
response type (GenerateContentResponse from ./types) are not part of the
supplied sources; they are modelled from the spec where noted.
-/

/-- The closed enumeration of error kinds, from the const enum
VertexAIErrorCode in errors.ts. -/
inductive VertexAIErrorCode where
  | FETCH_ERROR
  | INVALID_CONTENT
  | NO_API_KEY
  | NO_MODEL
  | NO_PROJECT_ID
  | PARSE_FAILED
  | BAD_RESPONSE
  | RESPONSE_ERROR
  deriving DecidableEq

/-- The string value of each enum member, as declared in the source. -/
def VertexAIErrorCode.codeString : VertexAIErrorCode → String
  | VertexAIErrorCode.FETCH_ERROR => "fetch-error"
  | VertexAIErrorCode.INVALID_CONTENT => "invalid-content"
  | VertexAIErrorCode.NO_API_KEY => "no-api-key"
  | VertexAIErrorCode.NO_MODEL => "no-model"
  | VertexAIErrorCode.NO_PROJECT_ID => "no-project-id"
  | VertexAIErrorCode.PARSE_FAILED => "parse-failed"
  | VertexAIErrorCode.BAD_RESPONSE => "bad-response"
  | VertexAIErrorCode.RESPONSE_ERROR => "response-error"

/-- The message template table VertexAIErrorMessages from errors.ts, kept
character for character; in particular the NO_API_KEY and NO_PROJECT_ID
entries are built in the source from two string pieces whose concatenation
has no space between the words to and contain. -/
def VertexAIErrorMessages : VertexAIErrorCode → String
  | VertexAIErrorCode.FETCH_ERROR => "Error fetching from \x7b$url\x7d: \x7b$message\x7d"
  | VertexAIErrorCode.INVALID_CONTENT => "Content formatting error: \x7b$message\x7d"
  | VertexAIErrorCode.NO_API_KEY =>
      "The \"apiKey\" field is empty in the local Firebase config. Firebase VertexAI requires this field tocontain a valid API key."
  | VertexAIErrorCode.NO_PROJECT_ID =>
      "The \"projectId\" field is empty in the local Firebase config. Firebase VertexAI requires this field tocontain a valid project ID."
  | VertexAIErrorCode.NO_MODEL =>
      "Must provide a model name. Example: getGenerativeModel(\x7b model: \x27my-model-name\x27 \x7d)"
  | VertexAIErrorCode.PARSE_FAILED => "Parsing failed: \x7b$message\x7d"
  | VertexAIErrorCode.BAD_RESPONSE =>
      "Bad response from \x7b$url\x7d: [\x7b$status\x7d \x7b$statusText\x7d] \x7b$message\x7d"
  | VertexAIErrorCode.RESPONSE_ERROR =>
      "Response error: \x7b$message\x7d. Response body stored in error.customData.response"

/-- The ErrorDetails interface from errors.ts: four recognized optional
properties plus an index signature admitting arbitrary further
string-keyed fields. The source property named at-sign type is modelled
by the field atType, since an at sign is not legal in a Lean identifier;
values of the TS type unknown are modelled as strings, since no claim
depends on their inner structure. -/
structure ErrorDetails where
  atType : Option String
  reason : Option String
  domain : Option String
  metadata : Option (List (String × String))
  extra : List (String × String)
  deriving DecidableEq

/-- The literal TS property names of the four recognized optional fields
declared by the ErrorDetails interface, in declaration order. -/
def ErrorDetails.recognizedKeys : List String :=
  ["@type", "reason", "domain", "metadata"]

/-- Modelled from the spec: the full decoded API response object supplied
by the caller of a response-error construction. Its type
GenerateContentResponse comes from ./types, which is not among the
supplied sources; no claim depends on its inner structure, so it is
modelled as an opaque bag of string fields. -/
structure GenerateContentResponse where
  raw : List (String × String)
  deriving DecidableEq

/-- Parameters of a fetch-error construction, from the
VertexAIErrorParams interface in errors.ts. -/
structure FetchErrorParams where
  url : String
  message : String
  deriving DecidableEq

/-- Parameters of the invalid-content and parse-failed constructions,
from the VertexAIErrorParams interface in errors.ts. -/
structure MessageOnlyParams where
  message : String
  deriving DecidableEq

/-- Parameters of a bad-response construction, from the
VertexAIErrorParams interface in errors.ts; status is a TS number that is
always an HTTP status code, modelled as Nat. -/
structure BadResponseParams where
  url : String
  status : Nat
  statusText : String
  message : String
  errorDetails : Option (List ErrorDetails)
  deriving DecidableEq

/-- Parameters of a response-error construction, from the
VertexAIErrorParams interface in errors.ts. -/
structure ResponseErrorParams where
  message : String
  response : GenerateContentResponse
  deriving DecidableEq

/-- The VertexAIErrorParams interface of errors.ts as a dependent record
of parameter types: the five kinds it declares get their record type, and
the kinds it does not mention take no parameters, mirroring the variadic
signature that passes an empty argument tuple for them. -/
def VertexAIErrorParams : VertexAIErrorCode → Type
  | VertexAIErrorCode.FETCH_ERROR => FetchErrorParams
  | VertexAIErrorCode.INVALID_CONTENT => MessageOnlyParams
  | VertexAIErrorCode.NO_API_KEY => Unit
  | VertexAIErrorCode.NO_MODEL => Unit
  | VertexAIErrorCode.NO_PROJECT_ID => Unit
  | VertexAIErrorCode.PARSE_FAILED => MessageOnlyParams
  | VertexAIErrorCode.BAD_RESPONSE => BadResponseParams
  | VertexAIErrorCode.RESPONSE_ERROR => ResponseErrorParams

/-- The customData bag declared by the VertexAIError class in errors.ts:
exactly the five diagnostic fields url, status, statusText, errorDetails
and response, each optional. The class declaration annotates status as a
string but documents it as the HTTP status code, and the value stored at
runtime flows from the numeric status parameter, so it is modelled as a
number here. -/
structure CustomData where
  url : Option String
  status : Option Nat
  statusText : Option String
  errorDetails : Option (List ErrorDetails)
  response : Option GenerateContentResponse
  deriving DecidableEq

/-- The produced error value: a kind tag, the rendered message, and the
diagnostic customData bag, per the VertexAIError class of errors.ts. -/
structure VertexAIError where
  code : VertexAIErrorCode
  message : String
  customData : CustomData
  deriving DecidableEq

/-- The open-brace character, written by its code point. -/
def openBrace : Char := '\x7b'

/-- Splits a character list at the first closing brace, returning the
characters before it and the characters after it, or none when no closing
brace occurs. -/
def splitAtCloseBrace : List Char → Option (List Char × List Char)
  | [] => none
  | c :: rest =>
    if c = '\x7d' then some ([], rest)
    else
      match splitAtCloseBrace rest with
      | some (pre, post) => some (c :: pre, post)
      | none => none

/-- Modelled from the spec: the placeholder substitution step of the
ErrorFactory from the util package, which is not among the supplied
sources. It scans the template and replaces each occurrence of a token
made of an open brace, a dollar sign, a field name and a close brace with
the string form of that field of the params record. The spec leaves the
treatment of a field that is absent at substitution time open between two
policies, so the replacement used for an absent field is a parameter of
the model. Fuel equal to the length of the scanned list suffices because
every step consumes at least one character. -/
def substFuel (bind : String → Option String) (missing : String → String) :
    Nat → List Char → List Char
  | 0, l => l
  | Nat.succ _, [] => []
  | Nat.succ fuel, '\x7b' :: '$' :: rest =>
    match splitAtCloseBrace rest with
    | some (pre, post) =>
      (match bind (String.mk pre) with
       | some v => v.data
       | none => (missing (String.mk pre)).data) ++ substFuel bind missing fuel post
    | none => '\x7b' :: '$' :: rest
  | Nat.succ fuel, c :: cs => c :: substFuel bind missing fuel cs

/-- Modelled from the spec: template rendering by placeholder
substitution over the whole template string. -/
def replaceTemplate (bind : String → Option String) (missing : String → String)
    (template : String) : String :=
  String.mk (substFuel bind missing template.data.length template.data)

/-- The string form of each param field that substitution may reference,
as a binding list keyed by the TS field names. Only fields whose string
form can be interpolated into a template are listed; errorDetails and
response are never referenced by any template. -/
def paramsBindings :
    (code : VertexAIErrorCode) → VertexAIErrorParams code → List (String × String)
  | VertexAIErrorCode.FETCH_ERROR, p => [("url", p.url), ("message", p.message)]
  | VertexAIErrorCode.INVALID_CONTENT, p => [("message", p.message)]
  | VertexAIErrorCode.NO_API_KEY, _ => []
  | VertexAIErrorCode.NO_MODEL, _ => []
  | VertexAIErrorCode.NO_PROJECT_ID, _ => []
  | VertexAIErrorCode.PARSE_FAILED, p => [("message", p.message)]
  | VertexAIErrorCode.BAD_RESPONSE, p =>
      [("url", p.url), ("status", toString p.status),
       ("statusText", p.statusText), ("message", p.message)]
  | VertexAIErrorCode.RESPONSE_ERROR, p => [("message", p.message)]

/-- Modelled from the spec: assembly of the customData bag from the
params fields that correspond to diagnostic data, namely url, status,
statusText, errorDetails and response; message-only fields are consumed
during substitution but not echoed into customData. This step belongs to
the ErrorFactory and constructor wiring, whose working form is not among
the supplied sources. -/
def customDataOf : (code : VertexAIErrorCode) → VertexAIErrorParams code → CustomData
  | VertexAIErrorCode.FETCH_ERROR, p => ⟨some p.url, none, none, none, none⟩
  | VertexAIErrorCode.INVALID_CONTENT, _ => ⟨none, none, none, none, none⟩
  | VertexAIErrorCode.NO_API_KEY, _ => ⟨none, none, none, none, none⟩
  | VertexAIErrorCode.NO_MODEL, _ => ⟨none, none, none, none, none⟩
  | VertexAIErrorCode.NO_PROJECT_ID, _ => ⟨none, none, none, none, none⟩
  | VertexAIErrorCode.PARSE_FAILED, _ => ⟨none, none, none, none, none⟩
  | VertexAIErrorCode.BAD_RESPONSE, p =>
      ⟨some p.url, some p.status, some p.statusText, p.errorDetails, none⟩
  | VertexAIErrorCode.RESPONSE_ERROR, p => ⟨none, none, none, none, some p.response⟩

/-- Modelled from the spec: the create method of the ERROR_FACTORY
instance declared in errors.ts; the ErrorFactory class itself lives in
the util package and is not among the supplied sources. It looks up the
template for the given kind, renders the message by substitution over the
string forms of the params fields, and assembles the diagnostic
customData. -/
def ERROR_FACTORY_create (missing : String → String) (code : VertexAIErrorCode)
    (data : VertexAIErrorParams code) : VertexAIError :=
  ⟨code,
   replaceTemplate (fun name => (paramsBindings code data).lookup name) missing
     (VertexAIErrorMessages code),
   customDataOf code data⟩

/-- The construction entry point createVertexError of errors.ts: build
the factory error for the kind and params, then return a VertexAIError
copying its code, message and a spread of its customData. The constructor
in the source reads a variable named firebaseError that it never binds,
which the spec flags as a latent defect in the excerpt; the evident
intent, matching the local of the same name in createVertexError, is the
factory result for the same code and params, and the model binds it so. -/
def createVertexError (missing : String → String) (code : VertexAIErrorCode)
    (data : VertexAIErrorParams code) : VertexAIError :=
  let firebaseError := ERROR_FACTORY_create missing code data
  ⟨firebaseError.code, firebaseError.message, firebaseError.customData⟩

/-- One of the two absent-field policies the spec allows: leave the
literal placeholder token in place. -/
def leaveLiteral (name : String) : String := "\x7b$" ++ name ++ "\x7d"

/-- True when the string has no open-brace character, so that splicing it
into a rendered message cannot create a placeholder token. -/
def noBrace (s : String) : Bool := s.data.all fun c => ! (c == openBrace)

/-- True when the character list contains, somewhere, an open brace
immediately followed by a dollar sign, the start of a placeholder token. -/
def hasPlaceholderStart : List Char → Bool
  | [] => false
  | [_] => false
  | a :: b :: rest => (a == openBrace && b == '$') || hasPlaceholderStart (b :: rest)

/-- A character other than an open brace at the head of a list does not
affect whether a placeholder start occurs. -/
theorem hasPlaceholderStart_cons (c : Char) (l : List Char)
    (hc : (c == openBrace) = false) :
    hasPlaceholderStart (c :: l) = hasPlaceholderStart l := by
  cases l with
  | nil => rfl
  | cons b t => simp [hasPlaceholderStart, hc]

/-- Prepending a list free of open braces does not affect whether a
placeholder start occurs. -/
theorem hasPlaceholderStart_append (l₁ l₂ : List Char)
    (h : ∀ c ∈ l₁, (c == openBrace) = false) :
    hasPlaceholderStart (l₁ ++ l₂) = hasPlaceholderStart l₂ := by
  induction l₁ with
  | nil => rfl
  | cons c t ih =>
    rw [List.cons_append,
      hasPlaceholderStart_cons c (t ++ l₂) (h c (List.mem_cons_self c t)),
      ih (fun x hx => h x (List.mem_cons_of_mem c hx))]

/-- A string passing the noBrace check has no open-brace character. -/
theorem noBrace_forall (s : String) (h : noBrace s = true) :
    ∀ c ∈ s.data, (c == openBrace) = false := by
  intro c hc
  have hall := List.all_eq_true.mp h c hc
  simpa using hall

/-- Rendered shape of a fetch-error message, with symbolic params. -/
theorem renderFetchError (missing : String → String) (p : FetchErrorParams) :
    (createVertexError missing VertexAIErrorCode.FETCH_ERROR p).message.data =
      "Error fetching from ".data ++ (p.url.data ++ (": ".data ++ (p.message.data ++ []))) :=
  rfl

/-- Rendered shape of an invalid-content message, with symbolic params. -/
theorem renderInvalidContent (missing : String → String) (p : MessageOnlyParams) :
    (createVertexError missing VertexAIErrorCode.INVALID_CONTENT p).message.data =
      "Content formatting error: ".data ++ (p.message.data ++ []) :=
  rfl

/-- Rendered shape of a parse-failed message, with symbolic params. -/
theorem renderParseFailed (missing : String → String) (p : MessageOnlyParams) :
    (createVertexError missing VertexAIErrorCode.PARSE_FAILED p).message.data =
      "Parsing failed: ".data ++ (p.message.data ++ []) :=
  rfl

/-- Rendered shape of a bad-response message, with symbolic params. -/
theorem renderBadResponse (missing : String → String) (p : BadResponseParams) :
    (createVertexError missing VertexAIErrorCode.BAD_RESPONSE p).message.data =
      "Bad response from ".data ++ (p.url.data ++ (": [".data ++
        ((toString p.status).data ++ (" ".data ++ (p.statusText.data ++
          ("] ".data ++ (p.message.data ++ []))))))) :=
  rfl

/-- Rendered shape of a response-error message, with symbolic params. -/
theorem renderResponseError (missing : String → String) (p : ResponseErrorParams) :
    (createVertexError missing VertexAIErrorCode.RESPONSE_ERROR p).message.data =
      "Response error: ".data ++ (p.message.data ++
        (". Response body stored in error.customData.response".data ++ [])) :=
  rfl

set_option maxRecDepth 8192 in
/-- Claim C1: for every error kind, calling createVertexError with a
complete, well-formed params record for that kind, meaning one whose
substituted field values contain no open brace and hence cannot
themselves introduce a placeholder token, returns an error whose rendered
message contains no unresolved placeholder token and whose kind
discriminant equals the input kind. -/
theorem claim_C1 (missing : String → String) (code : VertexAIErrorCode)
    (p : VertexAIErrorParams code)
    (h : ((paramsBindings code p).all fun kv => noBrace kv.2) = true) :
    hasPlaceholderStart (createVertexError missing code p).message.data = false ∧
    (createVertexError missing code p).code = code := by
  refine ⟨?_, rfl⟩
  cases code with
  | FETCH_ERROR =>
    simp only [paramsBindings, List.all_cons, List.all_nil, Bool.and_true,
      Bool.and_eq_true] at h
    rw [renderFetchError,
      hasPlaceholderStart_append _ _ (by decide),
      hasPlaceholderStart_append _ _ (noBrace_forall _ h.1),
      hasPlaceholderStart_append _ _ (by decide),
      hasPlaceholderStart_append _ _ (noBrace_forall _ h.2)]
    rfl
  | INVALID_CONTENT =>
    simp only [paramsBindings, List.all_cons, List.all_nil, Bool.and_true] at h
    rw [renderInvalidContent,
      hasPlaceholderStart_append _ _ (by decide),
      hasPlaceholderStart_append _ _ (noBrace_forall _ h)]
    rfl
  | NO_API_KEY => rfl
  | NO_MODEL => rfl
  | NO_PROJECT_ID => rfl
  | PARSE_FAILED =>
    simp only [paramsBindings, List.all_cons, List.all_nil, Bool.and_true] at h
    rw [renderParseFailed,
      hasPlaceholderStart_append _ _ (by decide),
      hasPlaceholderStart_append _ _ (noBrace_forall _ h)]
    rfl
  | BAD_RESPONSE =>
    simp only [paramsBindings, List.all_cons, List.all_nil, Bool.and_true,
      Bool.and_eq_true] at h
    rw [renderBadResponse,
      hasPlaceholderStart_append _ _ (by decide),
      hasPlaceholderStart_append _ _ (noBrace_forall _ h.1),
      hasPlaceholderStart_append _ _ (by decide),
      hasPlaceholderStart_append _ _ (noBrace_forall _ h.2.1),
      hasPlaceholderStart_append _ _ (by decide),
      hasPlaceholderStart_append _ _ (noBrace_forall _ h.2.2.1),
      hasPlaceholderStart_append _ _ (by decide),
      hasPlaceholderStart_append _ _ (noBrace_forall _ h.2.2.2)]
    rfl
  | RESPONSE_ERROR =>
    simp only [paramsBindings, List.all_cons, List.all_nil, Bool.and_true] at h
    rw [renderResponseError,
      hasPlaceholderStart_append _ _ (by decide),
      hasPlaceholderStart_append _ _ (noBrace_forall _ h),
      hasPlaceholderStart_append _ _ (by decide)]
    rfl

/-- Witness for claim C1 at a concrete bad-response construction. -/
theorem claim_C1_witness :
    ((paramsBindings VertexAIErrorCode.BAD_RESPONSE
        ⟨"u", 404, "Not Found", "missing", none⟩).all fun kv => noBrace kv.2) = true ∧
    (hasPlaceholderStart (createVertexError leaveLiteral VertexAIErrorCode.BAD_RESPONSE
        ⟨"u", 404, "Not Found", "missing", none⟩).message.data = false ∧
      (createVertexError leaveLiteral VertexAIErrorCode.BAD_RESPONSE
        ⟨"u", 404, "Not Found", "missing", none⟩).code = VertexAIErrorCode.BAD_RESPONSE) :=
  ⟨by decide,
   claim_C1 leaveLiteral VertexAIErrorCode.BAD_RESPONSE
     ⟨"u", 404, "Not Found", "missing", none⟩ (by decide)⟩

/-- Claim C2, companion theorem: under the spec-intended wiring of the
constructor, construction is total, in particular construction at the
no-model kind — the input on which the source constructor, as written,
dereferences an unbound variable — yields a fully formed error whose kind
is the input kind. The source defect itself, an out-of-scope variable
read, is a scoping error and has no value-level embedding. -/
theorem claim_C2_spec_model_total (missing : String → String)
    (code : VertexAIErrorCode) (p : VertexAIErrorParams code) :
    ∃ e : VertexAIError, createVertexError missing code p = e ∧ e.code = code :=
  ⟨createVertexError missing code p, rfl, rfl⟩

/-- Per the VertexAIErrorParams interface, the kinds whose params declare
a url field. -/
def declaresUrl : VertexAIErrorCode → Bool
  | VertexAIErrorCode.FETCH_ERROR => true
  | VertexAIErrorCode.BAD_RESPONSE => true
  | _ => false

/-- Per the VertexAIErrorParams interface, the kinds whose params declare
a status field. -/
def declaresStatus : VertexAIErrorCode → Bool
  | VertexAIErrorCode.BAD_RESPONSE => true
  | _ => false

/-- Per the VertexAIErrorParams interface, the kinds whose params declare
a statusText field. -/
def declaresStatusText : VertexAIErrorCode → Bool
  | VertexAIErrorCode.BAD_RESPONSE => true
  | _ => false

/-- Per the VertexAIErrorParams interface, the kinds whose params declare
an errorDetails field. -/
def declaresErrorDetails : VertexAIErrorCode → Bool
  | VertexAIErrorCode.BAD_RESPONSE => true
  | _ => false

/-- Per the VertexAIErrorParams interface, the kinds whose params declare
a response field. -/
def declaresResponse : VertexAIErrorCode → Bool
  | VertexAIErrorCode.RESPONSE_ERROR => true
  | _ => false

/-- True when every populated field of the customData bag is one the
given kind declares in its params type. -/
def customDataSubsetOfDeclared (code : VertexAIErrorCode) (cd : CustomData) : Bool :=
  (!cd.url.isSome || declaresUrl code) &&
  (!cd.status.isSome || declaresStatus code) &&
  (!cd.statusText.isSome || declaresStatusText code) &&
  (!cd.errorDetails.isSome || declaresErrorDetails code) &&
  (!cd.response.isSome || declaresResponse code)

/-- Claim C3: for every kind and params record, every populated
customData field of the constructed error is one the kind declares in
its params type, so no field of another kind leaks in; the customData bag
has no message field at all, so the free-text message, consumed during
substitution, never appears in it. -/
theorem claim_C3 (missing : String → String) (code : VertexAIErrorCode)
    (p : VertexAIErrorParams code) :
    customDataSubsetOfDeclared code (createVertexError missing code p).customData = true := by
  cases code <;>
    simp [createVertexError, ERROR_FACTORY_create, customDataOf,
      customDataSubsetOfDeclared, declaresUrl, declaresStatus, declaresStatusText,
      declaresErrorDetails, declaresResponse]

set_option maxRecDepth 8192 in
/-- Claim C4: for each kind declaring no parameters, construction with
the empty params tuple succeeds and yields exactly the static template
string as the message; in particular the no-model message is the exact
example string. -/
theorem claim_C4 (missing : String → String) :
    (createVertexError missing VertexAIErrorCode.NO_API_KEY ()).message =
      VertexAIErrorMessages VertexAIErrorCode.NO_API_KEY ∧
    (createVertexError missing VertexAIErrorCode.NO_PROJECT_ID ()).message =
      VertexAIErrorMessages VertexAIErrorCode.NO_PROJECT_ID ∧
    (createVertexError missing VertexAIErrorCode.NO_MODEL ()).message =
      VertexAIErrorMessages VertexAIErrorCode.NO_MODEL ∧
    (createVertexError missing VertexAIErrorCode.NO_MODEL ()).message =
      "Must provide a model name. Example: getGenerativeModel(\x7b model: \x27my-model-name\x27 \x7d)" :=
  ⟨rfl, rfl, rfl, rfl⟩

/-- Claim C5: the concrete bad-response construction of the spec renders
the expected message and stores the number 404 as the customData status. -/
theorem claim_C5 (missing : String → String) :
    (createVertexError missing VertexAIErrorCode.BAD_RESPONSE
        ⟨"u", 404, "Not Found", "missing", none⟩).message =
      "Bad response from u: [404 Not Found] missing" ∧
    (createVertexError missing VertexAIErrorCode.BAD_RESPONSE
        ⟨"u", 404, "Not Found", "missing", none⟩).customData.status = some 404 :=
  ⟨rfl, rfl⟩

/-- Claim C6: the concrete fetch-error construction of the spec renders
the expected message. -/
theorem claim_C6 (missing : String → String) :
    (createVertexError missing VertexAIErrorCode.FETCH_ERROR
        ⟨"https://api.example.com/v1", "timeout"⟩).message =
      "Error fetching from https://api.example.com/v1: timeout" :=
  rfl

/-- Claim C7: for every response-error construction, the response object
passed in params is stored unchanged in the customData response field. -/
theorem claim_C7 (missing : String → String) (p : ResponseErrorParams) :
    (createVertexError missing VertexAIErrorCode.RESPONSE_ERROR p).customData.response =
      some p.response :=
  rfl

/-- Claim C8: for every bad-response construction whose params include an
errorDetails sequence, the customData errorDetails of the resulting error
is the very same ordered sequence. -/
theorem claim_C8 (missing : String → String) (url : String) (status : Nat)
    (statusText message : String) (details : List ErrorDetails) :
    (createVertexError missing VertexAIErrorCode.BAD_RESPONSE
        ⟨url, status, statusText, message, some details⟩).customData.errorDetails =
      some details :=
  rfl

/-- Claim C9, counterexample: the recognized optional fields of the
ErrorDetails interface do not include one named type; the first
recognized property is named at-sign type. -/
theorem claim_C9_counterexample :
    ¬ ("type" ∈ ErrorDetails.recognizedKeys) ∧ "@type" ∈ ErrorDetails.recognizedKeys := by
  decide

/-- Claim C9 as amended: the recognized optional fields declared by the
ErrorDetails record type are named at-sign type, reason, domain and a
nested metadata mapping, and the type is open-ended, admitting arbitrary
additional string-keyed fields alongside any values of the recognized
ones. -/
theorem claim_C9_amended :
    ErrorDetails.recognizedKeys = ["@type", "reason", "domain", "metadata"] ∧
    ∀ (t r d : Option String) (m : Option (List (String × String)))
      (extra : List (String × String)),
      ∃ e : ErrorDetails, e.atType = t ∧ e.reason = r ∧ e.domain = d ∧
        e.metadata = m ∧ e.extra = extra :=
  ⟨rfl, fun t r d m extra => ⟨⟨t, r, d, m, extra⟩, rfl, rfl, rfl, rfl, rfl⟩⟩
